import Mathlib

/-!
Verification of the ACS shipping core (WooCommerce dashboard repository).

This file gives a shallow embedding of the shipment-lifecycle core:
the Shipment Store (`acs_database.py`: `add_shipment`, `get_today_stats`,
`create_pickup_list`, `get_shipment`), the orchestrator flow
(`acs_integration.py`: `create_voucher_with_auto_pdf`, the
pickup-list UI flow `create_pickup_list`), and the pure utility
`split_address` from `acs_api.py`.

Modelling conventions:
* A calendar day is modelled by a natural number (think of the 8-digit
  `%Y%m%d` numeral); both date renderings used by the code (`%Y%m%d`
  inside pickup-list numbers and `%Y-%m-%d` in the `pickup_date`
  column) are injective functions of the day, so comparing days by
  `Nat` equality is faithful to the SQL string comparisons.
* SQLite `REAL` columns (weight, COD amount) are modelled by `ℚ`; no
  claim in scope depends on floating-point rounding.
* The remote courier is modelled by an environment value recording the
  outcome of each call the flow would make (`Except` for voucher
  creation, per-attempt outcomes for label fetches); the flow is a
  pure function of that environment and the store state.
* The `UNIQUE` constraint on `shipments.voucher_no` is modelled inside
  `add_shipment` (the Python code catches the `IntegrityError` and
  returns `None` with the store unchanged).
-/

/-- One row of the `shipments` table (`acs_database.py`, `create_tables`).
`created_date` models `DATE(created_date)` as a day number. -/
structure Shipment where
  id : Nat
  voucher_no : Option String
  source : String
  woocommerce_order_id : Option Nat
  manual_reference : Option String
  recipient_name : String
  recipient_address : String
  recipient_city : String
  recipient_zipcode : String
  recipient_phone : String
  recipient_email : String
  weight : ℚ
  pieces : Nat
  cod_amount : ℚ
  created_date : Nat
  pickup_date : Option Nat
  pickup_list_no : Option String
  status : String
  notes : String
  pdf_path : Option String
deriving DecidableEq

/-- One row of the `pickup_lists` table. -/
structure PickupListRow where
  id : Nat
  pickup_list_no : String
  pickup_date : Nat
  total_vouchers : Nat
  eshop_count : Nat
  manual_count : Nat
  status : String
  pickup_time : String
deriving DecidableEq

/-- One row of the `activity_log` table. -/
structure LogEntry where
  action : String
  voucher_no : Option String
  details : String
deriving DecidableEq

/-- The Shipment Store state: the three tables plus the AUTOINCREMENT
counters for the two tables whose generated ids the code reads back. -/
structure DB where
  shipments : List Shipment
  pickup_lists : List PickupListRow
  log : List LogEntry
  next_shipment_id : Nat
  next_list_id : Nat
deriving DecidableEq

/-- The argument dict of `ACSDatabase.add_shipment`, with the
`data.get(...)` defaults already resolved by the caller. -/
structure AddData where
  voucher_no : Option String
  source : String
  woocommerce_order_id : Option Nat
  manual_reference : Option String
  recipient_name : String
  recipient_address : String
  recipient_city : String
  recipient_zipcode : String
  recipient_phone : String
  recipient_email : String
  weight : ℚ
  pieces : Nat
  cod_amount : ℚ
  status : String
  notes : String
  pdf_path : Option String
deriving DecidableEq

/-- `ACSDatabase.add_shipment`: INSERT into `shipments`.  The `UNIQUE`
constraint on `voucher_no` makes the INSERT raise on a duplicate
non-null voucher; the Python handler catches the exception and returns
`None` with no change (and no activity-log entry, since the log call is
skipped by the exception).  On success it appends one row, logs, and
returns the new row id. -/
def add_shipment (today : Nat) (db : DB) (d : AddData) : Option Nat × DB :=
  let dup := match d.voucher_no with
    | some v => db.shipments.any (fun r => decide (r.voucher_no = some v))
    | none => false
  if dup then (none, db)
  else
    let row : Shipment :=
      { id := db.next_shipment_id
        voucher_no := d.voucher_no
        source := d.source
        woocommerce_order_id := d.woocommerce_order_id
        manual_reference := d.manual_reference
        recipient_name := d.recipient_name
        recipient_address := d.recipient_address
        recipient_city := d.recipient_city
        recipient_zipcode := d.recipient_zipcode
        recipient_phone := d.recipient_phone
        recipient_email := d.recipient_email
        weight := d.weight
        pieces := d.pieces
        cod_amount := d.cod_amount
        created_date := today
        pickup_date := none
        pickup_list_no := none
        status := d.status
        notes := d.notes
        pdf_path := d.pdf_path }
    let entry : LogEntry :=
      { action := "CREATE_SHIPMENT"
        voucher_no := d.voucher_no
        details := "Created shipment for " ++ d.recipient_name }
    (some db.next_shipment_id,
      { db with
          shipments := db.shipments ++ [row]
          log := db.log ++ [entry]
          next_shipment_id := db.next_shipment_id + 1 })

/-- `ACSDatabase.get_shipment(voucher_no=...)`: first row with that
voucher number. -/
def get_shipment_by_voucher (db : DB) (v : String) : Option Shipment :=
  db.shipments.find? (fun r => decide (r.voucher_no = some v))

/-- Result of `ACSDatabase.get_today_stats`. -/
structure Stats where
  total : Nat
  eshop : Nat
  manual : Nat
  ready : Nat
deriving DecidableEq

/-- `ACSDatabase.get_today_stats`: the four COUNT(*) queries over
shipments with `DATE(created_date) = today`. -/
def get_today_stats (today : Nat) (db : DB) : Stats :=
  let ts := db.shipments.filter (fun s => decide (s.created_date = today))
  { total := ts.length
    eshop := (ts.filter (fun s => decide (s.source = "ESHOP"))).length
    manual := (ts.filter (fun s => decide (s.source = "MANUAL"))).length
    ready := (ts.filter (fun s => decide (s.status = "READY"))).length }

/-- Python `f-string` `{n:04d}`: decimal rendering zero-padded to a
minimum width of 4. -/
def pad4 (n : Nat) : String :=
  let s := toString n
  if s.length < 4 then String.mk (List.replicate (4 - s.length) '0') ++ s else s

/-- `today.strftime(%Y%m%d)` over our day model: the day number is the
8-digit numeral itself. -/
def natDateStr (d : Nat) : String := toString d

/-- The pickup-list number generated by `ACSDatabase.create_pickup_list`:
`f"{today:%Y%m%d}{count+1:04d}"` where `count` is the number of
existing `pickup_lists` rows for today. -/
def new_list_no (today : Nat) (db : DB) : String :=
  natDateStr today ++
    pad4 ((db.pickup_lists.filter (fun l => decide (l.pickup_date = today))).length + 1)

/-- The per-row effect of the UPDATE in `ACSDatabase.create_pickup_list`:
`SET pickup_list_no, pickup_date, status=PICKED_UP WHERE
DATE(created_date) = today AND status = READY`. -/
def stamp_shipment (today : Nat) (no : String) (s : Shipment) : Shipment :=
  if s.created_date = today ∧ s.status = "READY" then
    { s with pickup_list_no := some no, pickup_date := some today, status := "PICKED_UP" }
  else s

/-- The summary dict returned by `ACSDatabase.create_pickup_list`. -/
structure PickupSummary where
  pickup_list_no : String
  total_vouchers : Nat
  eshop_count : Nat
  manual_count : Nat
deriving DecidableEq

/-- `ACSDatabase.create_pickup_list`: reads today's stats, derives the
next list number, INSERTs the `pickup_lists` row (the `UNIQUE`
constraint on `pickup_list_no` makes the INSERT raise if the number is
already taken; the handler then returns `(None, {})` with no change),
stamps today's READY shipments, logs, and returns `(list_id, summary)`. -/
def db_create_pickup_list (today : Nat) (db : DB) : Option (Nat × PickupSummary) × DB :=
  let stats := get_today_stats today db
  let no := new_list_no today db
  if db.pickup_lists.any (fun l => decide (l.pickup_list_no = no)) then (none, db)
  else
    let row : PickupListRow :=
      { id := db.next_list_id
        pickup_list_no := no
        pickup_date := today
        total_vouchers := stats.total
        eshop_count := stats.eshop
        manual_count := stats.manual
        status := "PENDING"
        pickup_time := "10:00" }
    let entry : LogEntry :=
      { action := "CREATE_PICKUP_LIST"
        voucher_no := none
        details := "Created pickup list " ++ no ++ " with " ++
          toString stats.total ++ " shipments" }
    (some (db.next_list_id, ⟨no, stats.total, stats.eshop, stats.manual⟩),
      { db with
          shipments := db.shipments.map (stamp_shipment today no)
          pickup_lists := db.pickup_lists ++ [row]
          log := db.log ++ [entry]
          next_list_id := db.next_list_id + 1 })

/-- Modelled from the spec: `deleteShipment(id)` is part of the
Shipment Store contract in the spec (operations list: refuses if
`voucherNo` is set), but no such method exists anywhere in
`src/acs_database.py` (or the rest of `src/`).  Modelled faithfully
from the spec words: look up the row; if its voucher number is set,
return failure and change nothing; otherwise delete the row and
succeed. -/
def delete_shipment (db : DB) (sid : Nat) : Bool × DB :=
  match db.shipments.find? (fun r => decide (r.id = sid)) with
  | none => (false, db)
  | some s =>
      if s.voucher_no.isSome then (false, db)
      else (true, { db with shipments := db.shipments.filter (fun r => decide (¬ r.id = sid)) })

-- ==================== the split_address utility ====================

/-- Python `\w` restricted to the alphabet exercised here: Python's
character class is Unicode-aware, but the numeric-token position only
matters for ASCII digits/letters/underscore in the inputs in scope. -/
def isWordChar (c : Char) : Bool := c.isAlphanum || c = '_'

/-- Python `str.strip()` over the character list: drop whitespace from
both ends. -/
def stripChars (cs : List Char) : List Char :=
  ((cs.dropWhile Char.isWhitespace).reverse.dropWhile Char.isWhitespace).reverse

/-- Python `str.strip()`. -/
def strip (s : String) : String := String.mk (stripChars s.toList)

/-- The match of `re.search(r'(.+?)\s+(\d+\w*)$', s)` on an
already-stripped string `s`, returning `(group1.strip(), group2)` when
it matches.  The lazy first group plus the end anchor mean: the match
exists exactly when the final whitespace-delimited token consists of a
digit followed by word characters and something non-empty precedes it;
group 1 is then everything before that final whitespace run. -/
def trailing_number_split (s : String) : Option (String × String) :=
  let cs := s.toList
  let tok := (cs.reverse.takeWhile (fun c => ¬ c.isWhitespace)).reverse
  let pre := cs.take (cs.length - tok.length)
  if tok.length < cs.length && !tok.isEmpty &&
      (tok.headD 'x').isDigit && tok.all isWordChar then
    some (String.mk (stripChars pre), String.mk tok)
  else none

/-- `acs_api.split_address`: strip, try the trailing-number regex, and
fall back to `(whole, "")` when it does not match. -/
def split_address (full_address : String) : String × String :=
  let s := strip full_address
  match trailing_number_split s with
  | some p => p
  | none => (s, "")

-- ==================== the orchestrator (acs_integration.py) ====================

/-- Outcome of one `print_voucher` call plus the resulting file state:
`success` is the API-level `pdf_result['success']` (an exception in the
attempt counts as `success = false`), `fileSize` the size in bytes of
the written file (0 when absent or empty). -/
structure LabelOutcome where
  success : Bool
  fileSize : Nat
deriving DecidableEq

/-- The keep-the-path condition every method of
`create_voucher_with_auto_pdf` checks: the call succeeded and the file
exists with non-zero size. -/
def labelOk (o : LabelOutcome) : Bool := o.success && decide (0 < o.fileSize)

/-- Courier-side behaviour of one run of the flow: the
`create_voucher` outcome (`.error msg` or `.ok voucherNo`) and the
outcomes of up to three `print_voucher` attempts. -/
structure CourierEnv where
  voucher : Except String String
  label1 : LabelOutcome
  label2 : LabelOutcome
  label3 : LabelOutcome

/-- One `print_voucher` call as recorded in the flow trace:
`print_type` (2 = laser A4, 1 = thermal), the seconds slept immediately
before the call, the output path, and the outcome. -/
structure LabelAttempt where
  print_type : Nat
  delay_seconds : Nat
  output_path : String
  outcome : LabelOutcome
deriving DecidableEq

/-- Steps 2 of `create_voucher_with_auto_pdf` (Methods 1-3): laser
attempt, 2-second wait and laser retry into the same file, thermal
fallback into a `_thermal` file; stop at the first attempt that leaves
a non-empty PDF.  Returns the saved path (if any) and the trace of
`print_voucher` calls performed. -/
def label_fetch_sequence (env : CourierEnv) (folder ts v : String) :
    Option String × List LabelAttempt :=
  let laser := folder ++ "/voucher_" ++ v ++ "_" ++ ts ++ ".pdf"
  let thermal := folder ++ "/voucher_" ++ v ++ "_" ++ ts ++ "_thermal.pdf"
  let a1 : LabelAttempt := ⟨2, 0, laser, env.label1⟩
  if labelOk env.label1 then (some laser, [a1])
  else
    let a2 : LabelAttempt := ⟨2, 2, laser, env.label2⟩
    if labelOk env.label2 then (some laser, [a1, a2])
    else
      let a3 : LabelAttempt := ⟨1, 0, thermal, env.label3⟩
      if labelOk env.label3 then (some thermal, [a1, a2, a3])
      else (none, [a1, a2, a3])

/-- The `shipment_data` dict handed to `create_voucher_with_auto_pdf`
(the fields the flow reads, with the `.get` defaults resolved). -/
structure ApiData where
  recipient_name : String
  recipient_address : String
  recipient_region : String
  recipient_zipcode : String
  recipient_phone : String
  recipient_email : String
  weight : ℚ
  pieces : Nat
  cod_amount : ℚ
  delivery_notes : String
deriving DecidableEq

/-- The 4-tuple returned by `create_voucher_with_auto_pdf`, extended
with the trace of label-fetch calls the run performed. -/
structure FlowResult where
  success : Bool
  voucher_no : Option String
  pdf_path : Option String
  error : Option String
  label_trace : List LabelAttempt
deriving DecidableEq

/-- `ACSShippingTab.create_voucher_with_auto_pdf`: create the voucher
(on failure return the error with no store access), run the
three-attempt label fetch, then `add_shipment` a READY row whose
`pdf_path` is the saved path or null, and report success with the
voucher number and path. -/
def create_voucher_with_auto_pdf (env : CourierEnv) (shipment_data : ApiData)
    (source : String) (order_id : Option Nat) (today : Nat) (folder ts : String)
    (db : DB) : FlowResult × DB :=
  match env.voucher with
  | .error e => (⟨false, none, none, some e, []⟩, db)
  | .ok v =>
      let fetched := label_fetch_sequence env folder ts v
      let db' := (add_shipment today db
        { voucher_no := some v
          source := source
          woocommerce_order_id := order_id
          manual_reference := none
          recipient_name := shipment_data.recipient_name
          recipient_address := shipment_data.recipient_address
          recipient_city := shipment_data.recipient_region
          recipient_zipcode := shipment_data.recipient_zipcode
          recipient_phone := shipment_data.recipient_phone
          recipient_email := shipment_data.recipient_email
          weight := shipment_data.weight
          pieces := shipment_data.pieces
          cod_amount := shipment_data.cod_amount
          status := "READY"
          notes := shipment_data.delivery_notes
          pdf_path := fetched.1 }).2
      (⟨true, some v, fetched.1, none, fetched.2⟩, db')

/-- `ACSShippingTab.create_pickup_list` (the UI/orchestrator flow):
guard on zero shipments today, call the courier
(`ACS_Issue_Pickup_List`, outcome `courier`), and only on courier
success run the store batch operation; the courier-returned number is
what the flow keeps (as `current_pickup_list_no`) and returns. -/
def ui_create_pickup_list (courier : Except String String) (today : Nat)
    (db : DB) : Option String × DB :=
  if (get_today_stats today db).total = 0 then (none, db)
  else
    match courier with
    | .error _ => (none, db)
    | .ok no => (some no, (db_create_pickup_list today db).2)

-- ==================== helper lemmas ====================

theorem find?_append_right {α : Type} {p : α → Bool} {l1 l2 : List α}
    (h : ∀ a ∈ l1, p a = false) : (l1 ++ l2).find? p = l2.find? p := by
  induction l1 with
  | nil => rfl
  | cons a t ih =>
      have ha := h a (List.mem_cons_self a t)
      simp only [List.cons_append, List.find?_cons, ha]
      exact ih fun b hb => h b (List.mem_cons_of_mem a hb)

theorem stamp_shipment_created_date (today : Nat) (no : String) (s : Shipment) :
    (stamp_shipment today no s).created_date = s.created_date := by
  unfold stamp_shipment; split <;> rfl

theorem stamp_shipment_of_other_day (today : Nat) (no : String) (s : Shipment)
    (h : s.created_date ≠ today) : stamp_shipment today no s = s := by
  simp [stamp_shipment, h]

theorem stamp_shipment_idem (today : Nat) (no1 no2 : String) (s : Shipment) :
    stamp_shipment today no2 (stamp_shipment today no1 s) = stamp_shipment today no1 s := by
  by_cases hc : s.created_date = today ∧ s.status = "READY"
  · have hne : ("PICKED_UP" : String) ≠ "READY" := by decide
    simp [stamp_shipment, hc, hne]
  · simp [stamp_shipment, hc]

theorem filter_today_map_stamp (today : Nat) (no : String) (l : List Shipment) :
    ((l.map (stamp_shipment today no)).filter
        (fun s => decide (s.created_date = today))).length =
      (l.filter (fun s => decide (s.created_date = today))).length := by
  induction l with
  | nil => rfl
  | cons a t ih =>
      by_cases hc : a.created_date = today <;>
        simp [List.filter_cons, stamp_shipment_created_date, hc, ih]

theorem stamped_count_eq (today : Nat) (no : String) (l : List Shipment)
    (hready : ∀ s ∈ l, s.created_date = today → s.status = "READY")
    (hfresh : ∀ s ∈ l, s.pickup_list_no ≠ some no) :
    ((l.map (stamp_shipment today no)).filter
        (fun s => decide (s.pickup_list_no = some no))).length =
      (l.filter (fun s => decide (s.created_date = today))).length := by
  induction l with
  | nil => rfl
  | cons a t ih =>
      have ha1 := hready a (List.mem_cons_self a t)
      have ha2 := hfresh a (List.mem_cons_self a t)
      have iht := ih (fun s hs => hready s (List.mem_cons_of_mem a hs))
        (fun s hs => hfresh s (List.mem_cons_of_mem a hs))
      by_cases hc : a.created_date = today
      · have hr := ha1 hc
        simp [List.filter_cons, stamp_shipment, hc, hr, iht]
      · simp [List.filter_cons, stamp_shipment, hc, ha2, iht]

theorem length_eq_filter_source_split (l : List Shipment)
    (h : ∀ s ∈ l, s.source = "ESHOP" ∨ s.source = "MANUAL") :
    l.length = (l.filter (fun s => decide (s.source = "ESHOP"))).length +
      (l.filter (fun s => decide (s.source = "MANUAL"))).length := by
  induction l with
  | nil => rfl
  | cons a t ih =>
      have ha := h a (List.mem_cons_self a t)
      have iht := ih fun s hs => h s (List.mem_cons_of_mem a hs)
      have hne : ("ESHOP" : String) ≠ "MANUAL" := by decide
      rcases ha with h1 | h1 <;>
        simp [List.filter_cons, h1, hne, iht] <;> omega

-- ==================== sample data ====================

/-- A shipment-row builder for concrete test states. -/
def mkShipment (id : Nat) (v : Option String) (source : String) (created : Nat)
    (status : String) (plist : Option String) (pdf : Option String) : Shipment :=
  { id := id, voucher_no := v, source := source, woocommerce_order_id := none,
    manual_reference := none, recipient_name := "ΠΕΛΑΤΗΣ", recipient_address := "ΟΔΟΣ",
    recipient_city := "ΑΘΗΝΑ", recipient_zipcode := "11111",
    recipient_phone := "2100000000", recipient_email := "", weight := 1, pieces := 1,
    cod_amount := 0, created_date := created, pickup_date := none,
    pickup_list_no := plist, status := status, notes := "", pdf_path := pdf }

def emptyDB : DB := ⟨[], [], [], 1, 1⟩

def labelFail : LabelOutcome := ⟨false, 0⟩

def apiD : ApiData :=
  ⟨"ΠΕΛΑΤΗΣ", "ΟΔΟΣ", "ΑΘΗΝΑ", "11111", "2100000000", "", 1, 1, 0, ""⟩

def rowDel : Shipment := mkShipment 1 (some "V7") "MANUAL" 20250101 "READY" none none

def dbDel : DB := ⟨[rowDel], [], [], 2, 1⟩

def rowOld : Shipment := mkShipment 1 (some "V1") "ESHOP" 20240101 "READY" none none

def dbOld : DB := ⟨[rowOld], [], [], 2, 1⟩

def dbStats : DB := ⟨[mkShipment 1 (some "V1") "ESHOP" 20250101 "READY" none none,
  mkShipment 2 none "MANUAL" 20250101 "DRAFT" none none], [], [], 3, 1⟩

def envLab : CourierEnv := ⟨.ok "V3", labelFail, ⟨true, 9⟩, labelFail⟩

def envOk9 : CourierEnv := ⟨.ok "V9", labelFail, labelFail, labelFail⟩

def envOk8 : CourierEnv := ⟨.ok "V8", labelFail, labelFail, labelFail⟩

def rowReady : Shipment := mkShipment 1 (some "A1") "ESHOP" 20250101 "READY" none none

def dbReady : DB := ⟨[rowReady], [], [], 2, 1⟩

def rowNoVoucher : Shipment := mkShipment 1 none "MANUAL" 20250101 "READY" none none

def dbTwoReady : DB :=
  ⟨[rowNoVoucher, mkShipment 2 (some "A1") "ESHOP" 20250101 "READY" none none], [], [], 3, 1⟩

def dbDraftToday : DB :=
  ⟨[mkShipment 1 none "MANUAL" 20250101 "DRAFT" none none], [], [], 2, 1⟩

-- ==================== claim theorems ====================

/-- C9: `split_address` splits a free-text address with a trailing
numeric token into (street, number), and when no trailing numeric
token matches it returns the whole stripped string as street with an
empty number: the two scenario inputs behave as stated, and whenever
the trailing-number match fails the fallback applies. -/
theorem split_address_trailing_number :
    split_address "ΡΟΜΒΗΣ 25" = ("ΡΟΜΒΗΣ", "25") ∧
    split_address "Πλατεία Συντάγματος" = ("Πλατεία Συντάγματος", "") ∧
    ∀ s : String, trailing_number_split (strip s) = none →
      split_address s = (strip s, "") := by
  refine ⟨by decide, by decide, ?_⟩
  intro s h
  simp [split_address, h]

theorem split_address_trailing_number_witness :
    split_address "ΛΕΩΦΟΡΟΣ" = (strip "ΛΕΩΦΟΡΟΣ", "") :=
  split_address_trailing_number.2.2 "ΛΕΩΦΟΡΟΣ" (by decide)

/-- C7 (operation modelled from the spec, absent from the source): for
every shipment whose `voucher_no` is non-null, `delete_shipment`
returns failure and leaves the store unchanged; when the target has no
voucher the deletion succeeds. -/
theorem delete_shipment_refuses_vouchered (db : DB) (sid : Nat) (s : Shipment)
    (hfind : db.shipments.find? (fun r => decide (r.id = sid)) = some s) :
    (∀ v, s.voucher_no = some v → delete_shipment db sid = (false, db)) ∧
    (s.voucher_no = none → (delete_shipment db sid).1 = true) := by
  constructor
  · intro v hv
    simp [delete_shipment, hfind, hv]
  · intro hv
    simp [delete_shipment, hfind, hv]

theorem delete_shipment_refuses_vouchered_witness :
    delete_shipment dbDel 1 = (false, dbDel) :=
  (delete_shipment_refuses_vouchered dbDel 1 rowDel (by decide)).1 "V7" rfl

/-- C10: the store batch operation `create_pickup_list` only modifies
shipment rows created today: any row whose `created_date` is another
day — whatever its status, voucher, or pickup fields — is exactly
unchanged, so it is never included in a pickup list. -/
theorem db_pickup_list_frame_other_days (today : Nat) (db : DB) (i : Nat)
    (h : i < db.shipments.length)
    (hd : db.shipments[i].created_date ≠ today) :
    ((db_create_pickup_list today db).2.shipments)[i]? = some db.shipments[i] := by
  unfold db_create_pickup_list
  by_cases hc : db.pickup_lists.any
      (fun l => decide (l.pickup_list_no = new_list_no today db)) = true
  · simp [hc, List.getElem?_eq_getElem h]
  · simp only [Bool.not_eq_true] at hc
    simp [hc, List.getElem?_map, List.getElem?_eq_getElem h,
      stamp_shipment_of_other_day today _ _ hd]

theorem db_pickup_list_frame_other_days_witness :
    ((db_create_pickup_list 20250101 dbOld).2.shipments)[0]? = some dbOld.shipments[0] :=
  db_pickup_list_frame_other_days 20250101 dbOld 0 (by decide) (by decide)

/-- C8 (counterexample): `get_today_stats` computes `total` over ALL of
today's shipments but `eshop`/`manual` only over the two specific
source tags, so a store state holding a today shipment with another
source tag — reachable through `add_shipment`, which accepts an
arbitrary `source` string — breaks `total = eshop + manual` (and the
returned dict has keys `total`, `eshop`, `manual`, `ready` only: there
is no `codTotal` field at all). -/
theorem today_stats_other_source_counterexample :
    (get_today_stats 20250101 (add_shipment 20250101 emptyDB
      { voucher_no := none, source := "OTHER", woocommerce_order_id := none,
        manual_reference := none, recipient_name := "ΠΕΛΑΤΗΣ",
        recipient_address := "ΟΔΟΣ", recipient_city := "ΑΘΗΝΑ",
        recipient_zipcode := "11111", recipient_phone := "2100000000",
        recipient_email := "", weight := 1, pieces := 1, cod_amount := 0,
        status := "DRAFT", notes := "", pdf_path := none }).2).total = 1 ∧
    (get_today_stats 20250101 (add_shipment 20250101 emptyDB
      { voucher_no := none, source := "OTHER", woocommerce_order_id := none,
        manual_reference := none, recipient_name := "ΠΕΛΑΤΗΣ",
        recipient_address := "ΟΔΟΣ", recipient_city := "ΑΘΗΝΑ",
        recipient_zipcode := "11111", recipient_phone := "2100000000",
        recipient_email := "", weight := 1, pieces := 1, cod_amount := 0,
        status := "DRAFT", notes := "", pdf_path := none }).2).eshop +
    (get_today_stats 20250101 (add_shipment 20250101 emptyDB
      { voucher_no := none, source := "OTHER", woocommerce_order_id := none,
        manual_reference := none, recipient_name := "ΠΕΛΑΤΗΣ",
        recipient_address := "ΟΔΟΣ", recipient_city := "ΑΘΗΝΑ",
        recipient_zipcode := "11111", recipient_phone := "2100000000",
        recipient_email := "", weight := 1, pieces := 1, cod_amount := 0,
        status := "DRAFT", notes := "", pdf_path := none }).2).manual = 0 := by
  constructor <;> decide

/-- C8 (amended): when every shipment created today carries one of the
two source tags the code actually writes (`ESHOP`, `MANUAL`), the
`get_today_stats` counts satisfy `total = eshop + manual`; the result
carries no COD sum — its only fields are the four counts. -/
theorem today_stats_total_split (today : Nat) (db : DB)
    (h : ∀ s ∈ db.shipments, s.created_date = today →
        s.source = "ESHOP" ∨ s.source = "MANUAL") :
    (get_today_stats today db).total =
      (get_today_stats today db).eshop + (get_today_stats today db).manual := by
  unfold get_today_stats
  apply length_eq_filter_source_split
  intro s hs
  have hm := List.mem_filter.mp hs
  exact h s hm.1 (by simpa using hm.2)

theorem today_stats_total_split_witness :
    (get_today_stats 20250101 dbStats).total =
      (get_today_stats 20250101 dbStats).eshop +
      (get_today_stats 20250101 dbStats).manual :=
  today_stats_total_split 20250101 dbStats (by decide)

/-- C2: after a successful `createVoucher`, the label-fetch fallback of
`create_voucher_with_auto_pdf` performs at most 3 `print_voucher`
calls, in the order laser (type 2), laser retry preceded by the
2-second wait, thermal (type 1) — never a 4th — and every attempt
before the last one failed to yield a non-empty PDF (the sequence
stops at the first attempt that does). -/
theorem label_fetch_attempts_bounded (env : CourierEnv) (d : ApiData)
    (source : String) (oid : Option Nat) (today : Nat) (folder ts v : String)
    (db : DB) (h : env.voucher = .ok v) :
    ((create_voucher_with_auto_pdf env d source oid today folder ts db).1.label_trace).length ≤ 3 ∧
    ((create_voucher_with_auto_pdf env d source oid today folder ts db).1.label_trace).map
        (fun a => a.print_type) =
      [2, 2, 1].take
        ((create_voucher_with_auto_pdf env d source oid today folder ts db).1.label_trace).length ∧
    ((create_voucher_with_auto_pdf env d source oid today folder ts db).1.label_trace).map
        (fun a => a.delay_seconds) =
      [0, 2, 0].take
        ((create_voucher_with_auto_pdf env d source oid today folder ts db).1.label_trace).length ∧
    ∀ a ∈ ((create_voucher_with_auto_pdf env d source oid today folder ts
        db).1.label_trace).dropLast, labelOk a.outcome = false := by
  obtain ⟨vres, l1, l2, l3⟩ := env
  cases h
  cases h1 : labelOk l1 <;> cases h2 : labelOk l2 <;> cases h3 : labelOk l3 <;>
    simp_all [create_voucher_with_auto_pdf, label_fetch_sequence]

theorem label_fetch_attempts_bounded_witness :
    ((create_voucher_with_auto_pdf envLab apiD "MANUAL" none 20250101 "f" "t"
      emptyDB).1.label_trace).length ≤ 3 :=
  (label_fetch_attempts_bounded envLab apiD "MANUAL" none 20250101 "f" "t" "V3"
    emptyDB rfl).1

/-- C1 (counterexample): when `createVoucher` succeeds but returns a
voucher number that already exists in the store, the `UNIQUE
voucher_no` constraint makes `add_shipment` fail silently (it returns
`None`), the flow ignores that return value, and so the run reports
success while persisting no row at all — refuting "for every input on
which createVoucher succeeds, exactly one Shipment row is persisted". -/
theorem voucher_flow_duplicate_counterexample :
    (create_voucher_with_auto_pdf ⟨.ok "V1", labelFail, labelFail, labelFail⟩
      apiD "MANUAL" none 20250101 "f" "120000"
      ⟨[mkShipment 1 (some "V1") "MANUAL" 20250101 "READY" none none], [], [], 2, 1⟩).1.success
      = true ∧
    (create_voucher_with_auto_pdf ⟨.ok "V1", labelFail, labelFail, labelFail⟩
      apiD "MANUAL" none 20250101 "f" "120000"
      ⟨[mkShipment 1 (some "V1") "MANUAL" 20250101 "READY" none none], [], [], 2, 1⟩).2.shipments
      = [mkShipment 1 (some "V1") "MANUAL" 20250101 "READY" none none] := by
  constructor <;> decide

/-- C1 (amended): a Shipment row is written only if `createVoucher`
succeeded.  On any courier failure the flow returns the error with the
store completely unchanged; on success with a voucher number not
already present in the store, exactly one row — carrying that voucher
number — is appended. -/
theorem voucher_flow_persists_iff (env : CourierEnv) (d : ApiData) (source : String)
    (oid : Option Nat) (today : Nat) (folder ts : String) (db : DB) :
    (∀ e, env.voucher = .error e →
      create_voucher_with_auto_pdf env d source oid today folder ts db =
        (⟨false, none, none, some e, []⟩, db)) ∧
    (∀ v, env.voucher = .ok v →
      (∀ s ∈ db.shipments, s.voucher_no ≠ some v) →
      (create_voucher_with_auto_pdf env d source oid today folder ts db).1.success = true ∧
      ∃ row : Shipment,
        (create_voucher_with_auto_pdf env d source oid today folder ts db).2.shipments =
          db.shipments ++ [row] ∧ row.voucher_no = some v) := by
  obtain ⟨vres, l1, l2, l3⟩ := env
  constructor
  · rintro e rfl
    rfl
  · rintro v rfl hfresh
    have hdup : (db.shipments.any (fun r => decide (r.voucher_no = some v))) = false := by
      simp only [List.any_eq_false, decide_eq_true_eq]
      exact hfresh
    refine ⟨rfl, ?_⟩
    refine ⟨{ id := db.next_shipment_id
              voucher_no := some v
              source := source
              woocommerce_order_id := oid
              manual_reference := none
              recipient_name := d.recipient_name
              recipient_address := d.recipient_address
              recipient_city := d.recipient_region
              recipient_zipcode := d.recipient_zipcode
              recipient_phone := d.recipient_phone
              recipient_email := d.recipient_email
              weight := d.weight
              pieces := d.pieces
              cod_amount := d.cod_amount
              created_date := today
              pickup_date := none
              pickup_list_no := none
              status := "READY"
              notes := d.delivery_notes
              pdf_path := (label_fetch_sequence ⟨.ok v, l1, l2, l3⟩ folder ts v).1 },
      ?_, rfl⟩
    simp [create_voucher_with_auto_pdf, add_shipment, hdup]

theorem voucher_flow_persists_iff_witness :
    (create_voucher_with_auto_pdf envOk9 apiD "MANUAL" none 20250101 "f" "120000"
      emptyDB).1.success = true :=
  ((voucher_flow_persists_iff envOk9 apiD "MANUAL" none 20250101 "f" "120000"
    emptyDB).2 "V9" rfl (by decide)).1

/-- C3 (counterexample): when every label attempt fails AND the
courier-returned voucher number collides with an existing row, the
flow still returns success with a null pdf path, but it persists
nothing: the only row for that voucher remains the pre-existing DRAFT
one, so no READY row with that voucher exists — refuting "for every
run ... the flow still persists a Shipment row with status READY". -/
theorem voucher_flow_no_row_counterexample :
    (create_voucher_with_auto_pdf ⟨.ok "V2", labelFail, labelFail, labelFail⟩
      apiD "MANUAL" none 20250101 "f" "120000"
      ⟨[mkShipment 1 (some "V2") "MANUAL" 20250101 "DRAFT" none none], [], [], 2, 1⟩).1.success
      = true ∧
    (create_voucher_with_auto_pdf ⟨.ok "V2", labelFail, labelFail, labelFail⟩
      apiD "MANUAL" none 20250101 "f" "120000"
      ⟨[mkShipment 1 (some "V2") "MANUAL" 20250101 "DRAFT" none none], [], [], 2, 1⟩).1.pdf_path
      = none ∧
    ((create_voucher_with_auto_pdf ⟨.ok "V2", labelFail, labelFail, labelFail⟩
      apiD "MANUAL" none 20250101 "f" "120000"
      ⟨[mkShipment 1 (some "V2") "MANUAL" 20250101 "DRAFT" none none], [], [], 2, 1⟩).2.shipments.map
        (fun s => s.status)) = ["DRAFT"] := by
  refine ⟨by decide, by decide, by decide⟩

/-- C3 (amended): when `createVoucher` succeeds with a voucher number
not already in the store and every label attempt fails, the flow still
persists a Shipment row with status READY, the voucher number set and
`pdf_path` null, and returns success with a null pdf path; the row is
retrievable by voucher number and its null `pdf_path` distinguishes it
from a row with a path set. -/
theorem voucher_flow_labels_fail_persists_ready (env : CourierEnv) (d : ApiData)
    (source : String) (oid : Option Nat) (today : Nat) (folder ts v : String)
    (db : DB) (hv : env.voucher = .ok v)
    (h1 : labelOk env.label1 = false) (h2 : labelOk env.label2 = false)
    (h3 : labelOk env.label3 = false)
    (hfresh : ∀ s ∈ db.shipments, s.voucher_no ≠ some v) :
    (create_voucher_with_auto_pdf env d source oid today folder ts db).1.success = true ∧
    (create_voucher_with_auto_pdf env d source oid today folder ts db).1.voucher_no = some v ∧
    (create_voucher_with_auto_pdf env d source oid today folder ts db).1.pdf_path = none ∧
    (create_voucher_with_auto_pdf env d source oid today folder ts db).1.error = none ∧
    ∃ row : Shipment,
      get_shipment_by_voucher
          (create_voucher_with_auto_pdf env d source oid today folder ts db).2 v =
        some row ∧
      row.status = "READY" ∧ row.voucher_no = some v ∧ row.pdf_path = none := by
  obtain ⟨vres, l1, l2, l3⟩ := env
  cases hv
  simp only at h1 h2 h3
  have hdup : (db.shipments.any (fun r => decide (r.voucher_no = some v))) = false := by
    simp only [List.any_eq_false, decide_eq_true_eq]
    exact hfresh
  refine ⟨rfl, ?_, ?_, ?_, ?_⟩
  · simp [create_voucher_with_auto_pdf, label_fetch_sequence, h1, h2, h3]
  · simp [create_voucher_with_auto_pdf, label_fetch_sequence, h1, h2, h3]
  · simp [create_voucher_with_auto_pdf, label_fetch_sequence, h1, h2, h3]
  · refine ⟨{ id := db.next_shipment_id
              voucher_no := some v
              source := source
              woocommerce_order_id := oid
              manual_reference := none
              recipient_name := d.recipient_name
              recipient_address := d.recipient_address
              recipient_city := d.recipient_region
              recipient_zipcode := d.recipient_zipcode
              recipient_phone := d.recipient_phone
              recipient_email := d.recipient_email
              weight := d.weight
              pieces := d.pieces
              cod_amount := d.cod_amount
              created_date := today
              pickup_date := none
              pickup_list_no := none
              status := "READY"
              notes := d.delivery_notes
              pdf_path := none },
      ?_, rfl, rfl, rfl⟩
    unfold get_shipment_by_voucher
    have hship : (create_voucher_with_auto_pdf ⟨.ok v, l1, l2, l3⟩ d source oid today
        folder ts db).2.shipments = db.shipments ++
          [{ id := db.next_shipment_id
             voucher_no := some v
             source := source
             woocommerce_order_id := oid
             manual_reference := none
             recipient_name := d.recipient_name
             recipient_address := d.recipient_address
             recipient_city := d.recipient_region
             recipient_zipcode := d.recipient_zipcode
             recipient_phone := d.recipient_phone
             recipient_email := d.recipient_email
             weight := d.weight
             pieces := d.pieces
             cod_amount := d.cod_amount
             created_date := today
             pickup_date := none
             pickup_list_no := none
             status := "READY"
             notes := d.delivery_notes
             pdf_path := none }] := by
      simp [create_voucher_with_auto_pdf, label_fetch_sequence, h1, h2, h3,
        add_shipment, hdup]
    rw [hship, find?_append_right (fun a ha => by simpa using hfresh a ha)]
    simp

theorem voucher_flow_labels_fail_persists_ready_witness :
    (create_voucher_with_auto_pdf envOk8 apiD "MANUAL" none 20250101 "f" "120000"
      emptyDB).1.pdf_path = none :=
  (voucher_flow_labels_fail_persists_ready envOk8 apiD "MANUAL" none 20250101
    "f" "120000" "V8" emptyDB rfl rfl rfl rfl (by decide)).2.2.1

/-- C5 (counterexample): the store's `create_pickup_list` copies
`stats['total']` — the count of ALL shipments created today, whatever
their status — into `total_vouchers`, while its UPDATE stamps only
today's READY rows; a store holding one today DRAFT shipment therefore
creates a list with `total_vouchers = 1` while zero rows are stamped
with its number. -/
theorem pickup_list_total_vouchers_counterexample :
    ((db_create_pickup_list 20250101 dbDraftToday).2.pickup_lists.map
      (fun r => (r.pickup_list_no, r.total_vouchers))) = [("202501010001", 1)] ∧
    (((db_create_pickup_list 20250101 dbDraftToday).2.shipments).filter
      (fun s => decide (s.pickup_list_no = some "202501010001"))).length = 0 := by
  constructor <;> decide

/-- C5 (amended): `total_vouchers` is a snapshot of the count of ALL
shipments created today; it equals the number of rows stamped with the
new list number exactly when every shipment created today is READY
(and no pre-existing row already carries the generated number, and the
list INSERT itself does not collide). -/
theorem pickup_list_total_vouchers_snapshot (today : Nat) (db : DB)
    (hready : ∀ s ∈ db.shipments, s.created_date = today → s.status = "READY")
    (hfresh : ∀ s ∈ db.shipments, s.pickup_list_no ≠ some (new_list_no today db))
    (hcol : db.pickup_lists.any
      (fun l => decide (l.pickup_list_no = new_list_no today db)) = false) :
    ∃ row : PickupListRow,
      (db_create_pickup_list today db).2.pickup_lists = db.pickup_lists ++ [row] ∧
      row.pickup_list_no = new_list_no today db ∧
      row.total_vouchers = (((db_create_pickup_list today db).2.shipments).filter
        (fun s => decide (s.pickup_list_no = some (new_list_no today db)))).length := by
  have hship : (db_create_pickup_list today db).2.shipments =
      db.shipments.map (stamp_shipment today (new_list_no today db)) := by
    unfold db_create_pickup_list
    simp [hcol]
  have hlists : (db_create_pickup_list today db).2.pickup_lists =
      db.pickup_lists ++
        [{ id := db.next_list_id
           pickup_list_no := new_list_no today db
           pickup_date := today
           total_vouchers := (get_today_stats today db).total
           eshop_count := (get_today_stats today db).eshop
           manual_count := (get_today_stats today db).manual
           status := "PENDING"
           pickup_time := "10:00" }] := by
    unfold db_create_pickup_list
    simp [hcol, get_today_stats]
  refine ⟨_, hlists, rfl, ?_⟩
  rw [hship, stamped_count_eq today (new_list_no today db) db.shipments hready hfresh]
  rfl

theorem pickup_list_total_vouchers_snapshot_witness :
    ∃ row : PickupListRow,
      (db_create_pickup_list 20250101 dbReady).2.pickup_lists =
        dbReady.pickup_lists ++ [row] ∧
      row.pickup_list_no = new_list_no 20250101 dbReady ∧
      row.total_vouchers = (((db_create_pickup_list 20250101 dbReady).2.shipments).filter
        (fun s => decide (s.pickup_list_no = some (new_list_no 20250101 dbReady)))).length :=
  pickup_list_total_vouchers_snapshot 20250101 dbReady (by decide) (by decide) rfl

/-- C6 (counterexample): running the pickup flow twice on the same day
with no new shipments in between is NOT a no-op and is not caught by
the caller guard (which only checks for zero shipments today): the
second run creates a second PickupList row whose `total_vouchers`
counts the very shipments already assigned to the first list. -/
theorem pickup_list_twice_counterexample :
    (ui_create_pickup_list (.ok "PL2") 20250101
      (ui_create_pickup_list (.ok "PL1") 20250101 dbReady).2).1 = some "PL2" ∧
    ((ui_create_pickup_list (.ok "PL2") 20250101
      (ui_create_pickup_list (.ok "PL1") 20250101 dbReady).2).2.pickup_lists.map
        (fun r => r.total_vouchers)) = [1, 1] := by
  constructor <;> decide

/-- C6 (amended): a second same-day batch run never re-stamps a
shipment — after a successful first run no shipment row changes at all
in the second (each stamped row keeps the first run's number and its
PICKED_UP status, so no shipment is ever assigned two list numbers) —
but the second run is not a no-op: when its INSERT succeeds it creates
another PickupList row whose `total_vouchers` again counts all of
today's shipments. -/
theorem pickup_list_twice_no_restamp (today : Nat) (db : DB)
    (hcol : db.pickup_lists.any
      (fun l => decide (l.pickup_list_no = new_list_no today db)) = false) :
    (db_create_pickup_list today (db_create_pickup_list today db).2).2.shipments =
      (db_create_pickup_list today db).2.shipments ∧
    ∀ id2 s2, (db_create_pickup_list today (db_create_pickup_list today db).2).1 =
      some (id2, s2) → s2.total_vouchers = (get_today_stats today db).total := by
  have hship1 : (db_create_pickup_list today db).2.shipments =
      db.shipments.map (stamp_shipment today (new_list_no today db)) := by
    unfold db_create_pickup_list
    simp [hcol]
  have htot : (get_today_stats today (db_create_pickup_list today db).2).total =
      (get_today_stats today db).total := by
    simp only [get_today_stats, hship1]
    exact filter_today_map_stamp today (new_list_no today db) db.shipments
  constructor
  · by_cases hc2 : ((db_create_pickup_list today db).2.pickup_lists.any
        (fun l => decide (l.pickup_list_no =
          new_list_no today (db_create_pickup_list today db).2))) = true
    · conv_lhs => rw [db_create_pickup_list]
      simp [hc2]
    · conv_lhs => rw [db_create_pickup_list]
      simp only [Bool.not_eq_true] at hc2
      simp only [hc2, Bool.false_eq_true, if_false]
      rw [hship1, List.map_map]
      exact List.map_congr_left fun a _ => stamp_shipment_idem today _ _ a
  · intro id2 s2 h
    by_cases hc2 : ((db_create_pickup_list today db).2.pickup_lists.any
        (fun l => decide (l.pickup_list_no =
          new_list_no today (db_create_pickup_list today db).2))) = true
    · rw [db_create_pickup_list] at h
      simp [hc2] at h
    · rw [db_create_pickup_list] at h
      simp only [Bool.not_eq_true] at hc2
      simp only [hc2, Bool.false_eq_true, if_false, Option.some.injEq,
        Prod.mk.injEq] at h
      rw [← h.2, ← htot]

theorem pickup_list_twice_no_restamp_witness :
    (db_create_pickup_list 20250101
      (db_create_pickup_list 20250101 dbTwoReady).2).2.shipments =
      (db_create_pickup_list 20250101 dbTwoReady).2.shipments :=
  (pickup_list_twice_no_restamp 20250101 dbTwoReady rfl).1

/-- C4 (counterexample): after the courier call succeeds with
pickup-list number "CX9", the store batch operation stamps the local
rows with its own locally generated number "202501010001" — not the
courier's — and stamps every today READY row including one with no
voucher; the local PickupList row also carries the local number. -/
theorem ui_pickup_courier_number_counterexample :
    (ui_create_pickup_list (.ok "CX9") 20250101 dbTwoReady).1 = some "CX9" ∧
    ((ui_create_pickup_list (.ok "CX9") 20250101 dbTwoReady).2.shipments.map
      (fun s => s.pickup_list_no)) = [some "202501010001", some "202501010001"] ∧
    ((ui_create_pickup_list (.ok "CX9") 20250101 dbTwoReady).2.pickup_lists.map
      (fun l => l.pickup_list_no)) = ["202501010001"] ∧
    ("202501010001" : String) ≠ "CX9" := by
  refine ⟨by decide, by decide, by decide, by decide⟩

/-- C4 (amended): when the courier batch call succeeds, the flow runs
the store batch operation, which stamps every shipment created today
with status READY (voucher or not) with the LOCALLY generated list
number (date + sequence) and flips it to PICKED_UP, leaves every other
row unchanged, and appends a local PickupList row carrying that same
local number; the courier-returned number is only kept in memory and
returned to the caller. -/
theorem ui_pickup_stamps_local_number (c : String) (today : Nat) (db : DB)
    (htot : (get_today_stats today db).total ≠ 0)
    (hcol : db.pickup_lists.any
      (fun l => decide (l.pickup_list_no = new_list_no today db)) = false) :
    (ui_create_pickup_list (.ok c) today db).1 = some c ∧
    (∃ row : PickupListRow,
      (ui_create_pickup_list (.ok c) today db).2.pickup_lists =
        db.pickup_lists ++ [row] ∧
      row.pickup_list_no = new_list_no today db) ∧
    ∀ i, (h : i < db.shipments.length) →
      (db.shipments[i].created_date = today ∧ db.shipments[i].status = "READY" →
        ((ui_create_pickup_list (.ok c) today db).2.shipments)[i]? =
          some { db.shipments[i] with
                 pickup_list_no := some (new_list_no today db)
                 pickup_date := some today
                 status := "PICKED_UP" }) ∧
      (¬(db.shipments[i].created_date = today ∧ db.shipments[i].status = "READY") →
        ((ui_create_pickup_list (.ok c) today db).2.shipments)[i]? =
          some db.shipments[i]) := by
  have hui : ui_create_pickup_list (.ok c) today db =
      (some c, (db_create_pickup_list today db).2) := by
    unfold ui_create_pickup_list
    simp [htot]
  have hship : (db_create_pickup_list today db).2.shipments =
      db.shipments.map (stamp_shipment today (new_list_no today db)) := by
    unfold db_create_pickup_list
    simp [hcol]
  refine ⟨by rw [hui], ?_, ?_⟩
  · rw [hui]
    unfold db_create_pickup_list
    simp only [hcol, Bool.false_eq_true, if_false]
    exact ⟨_, rfl, rfl⟩
  · intro i h
    constructor
    · intro hcase
      rw [hui]
      simp only [hship, List.getElem?_map, List.getElem?_eq_getElem h]
      simp [stamp_shipment, hcase]
    · intro hcase
      rw [hui]
      simp only [hship, List.getElem?_map, List.getElem?_eq_getElem h]
      simp [stamp_shipment, hcase]

theorem ui_pickup_stamps_local_number_witness :
    (ui_create_pickup_list (.ok "COURIER7") 20250101 dbReady).1 = some "COURIER7" :=
  (ui_pickup_stamps_local_number "COURIER7" 20250101 dbReady (by decide) rfl).1
